import Mathlib

/-!
Verification of the domain-driven automation core: a shallow embedding of
the execution status machine, the domain entities (Run, ItemExecution),
the repository layer with optimistic concurrency control and soft delete,
and the unit-of-work event dispatch, together with theorems settling the
specification claims against this embedding.

Sources embedded:
- src/project/domain/enums.py (ExecutionStatus)
- src/project/domain/base.py (DomainEntity equality, version bump, events)
- src/project/domain/entities/execution.py (Run, ItemExecution)
- src/project/infrastructure/database/repositories/base.py (BaseRepository)
- src/project/infrastructure/uow/unit_of_work.py (UnitOfWork, EventBus)

Machine integers of the source are Python arbitrary-precision ints, embedded
as Nat (versions, counters) and Int (error payloads that use the -1
sentinel).  Timestamps are embedded as abstract Nat ticks supplied as an
explicit `now` argument wherever the source calls datetime.now().
-/

/-- The seven execution states of `ExecutionStatus` in enums.py. -/
inductive ExecutionStatus where
  | PENDING
  | PROCESSING
  | COMPLETED
  | FAILED
  | CANCELLED
  | SKIPPED
  | RETRYING
deriving DecidableEq, Repr, Fintype

/-- The `.value` string of each enum member. -/
def ExecutionStatus.value : ExecutionStatus → String
  | .PENDING => "PENDING"
  | .PROCESSING => "PROCESSING"
  | .COMPLETED => "COMPLETED"
  | .FAILED => "FAILED"
  | .CANCELLED => "CANCELLED"
  | .SKIPPED => "SKIPPED"
  | .RETRYING => "RETRYING"

/-- The `valid_transitions` dictionary inside
`ExecutionStatus.can_transition_to` (enums.py lines 79-87), one list of
allowed targets per source state. -/
def valid_transitions : ExecutionStatus → List ExecutionStatus
  | .PENDING => [.PROCESSING, .CANCELLED, .SKIPPED]
  | .PROCESSING => [.COMPLETED, .FAILED, .RETRYING, .CANCELLED]
  | .RETRYING => [.PROCESSING, .FAILED, .CANCELLED]
  | .COMPLETED => []
  | .FAILED => [.PENDING, .RETRYING]
  | .CANCELLED => []
  | .SKIPPED => []

/-- `ExecutionStatus.can_transition_to` (enums.py lines 70-88):
membership of the target in the source's allowed-target set. -/
def ExecutionStatus.can_transition_to (s t : ExecutionStatus) : Bool :=
  (valid_transitions s).contains t

/-- `ExecutionStatus.is_finished` (enums.py lines 31-44). -/
def ExecutionStatus.is_finished (s : ExecutionStatus) : Bool :=
  [ExecutionStatus.COMPLETED, .FAILED, .CANCELLED, .SKIPPED].contains s

/-- The transition table exactly as the specification section 4.1 lists it:
every legal (from, to) pair. -/
def specLegalPairs : List (ExecutionStatus × ExecutionStatus) :=
  [(.PENDING, .PROCESSING), (.PENDING, .CANCELLED), (.PENDING, .SKIPPED),
   (.PROCESSING, .COMPLETED), (.PROCESSING, .FAILED), (.PROCESSING, .RETRYING),
   (.PROCESSING, .CANCELLED),
   (.RETRYING, .PROCESSING), (.RETRYING, .FAILED), (.RETRYING, .CANCELLED),
   (.FAILED, .PENDING), (.FAILED, .RETRYING)]

/-- The domain events of events.py that the embedded entities raise. -/
inductive DomainEvent where
  | RunCompleted (run_id : Nat) (automation_id : Nat) (finished_at : Nat)
  | RunFailed (run_id : Nat) (automation_id : Nat) (error_summary : String)
      (finished_at : Nat)
  | RunCancelled (run_id : Nat) (automation_id : Nat)
      (cancellation_reason : String) (finished_at : Nat)
  | ItemExecutionFailed (item_execution_id : Nat) (run_id : Nat) (item_id : Nat)
      (error_message : String) (attempt_count : Nat)
  | BatchExecutionFailed (batch_execution_id : Nat) (run_id : Nat)
      (batch_id : Nat) (finished_at : Nat)
deriving DecidableEq, Repr

/-- `InvalidStateError` (domain/exceptions/domain.py): entity name, entity
id, current state string and the attempted operation. -/
structure InvalidStateError where
  entity : String
  entity_id : Nat
  current_state : String
  operation : String
deriving DecidableEq, Repr

/-- The `Run` entity (execution.py lines 11-121) with the `DomainEntity`
base fields (base.py) flattened in. -/
structure Run where
  id : Nat
  automation_id : Nat
  correlation_id : Option String := none
  cancellation_reason : Option String := none
  error_summary : Option String := none
  status : ExecutionStatus := .PENDING
  started_at : Option Nat := none
  finished_at : Option Nat := none
  created_at : Option Nat := none
  updated_at : Option Nat := none
  created_by : Option String := none
  updated_by : Option String := none
  version : Nat := 1
  is_active : Bool := true
  events : List DomainEvent := []
deriving DecidableEq, Repr

/-- `DomainEntity._bump_version` (base.py lines 120-126) specialised to
`Run`: version + 1 and updated_at refreshed. -/
def Run.bump_version (r : Run) (now : Nat) : Run :=
  { r with version := r.version + 1, updated_at := some now }

/-- `DomainEntity.__eq__` (base.py lines 89-100) on two `Run` values:
identity comparison by id only. -/
def Run.domain_eq (a b : Run) : Bool :=
  a.id == b.id

/-- `Run.complete` (execution.py lines 56-73).  Returns the error raised,
if any, together with the entity state after the call. -/
def Run.complete (r : Run) (now : Nat) : Option InvalidStateError × Run :=
  if r.status.can_transition_to .COMPLETED = false then
    (some ⟨"Run", r.id, r.status.value, "complete"⟩, r)
  else
    let r1 := { r with status := ExecutionStatus.COMPLETED, finished_at := some now }
    let r2 := r1.bump_version now
    (none, { r2 with events := r2.events ++ [.RunCompleted r.id r.automation_id now] })

/-- The `ItemExecution` entity (execution.py lines 198-324) with the
`DomainEntity` base fields flattened in. -/
structure ItemExecution where
  id : Nat
  run_id : Nat
  batch_execution_id : Nat
  item_id : Nat
  result_payload : Option Nat := none
  error_message : Option String := none
  status : ExecutionStatus := .PENDING
  started_at : Option Nat := none
  finished_at : Option Nat := none
  attempt_count : Nat := 0
  max_attempts : Option Nat := none
  created_at : Option Nat := none
  updated_at : Option Nat := none
  created_by : Option String := none
  updated_by : Option String := none
  version : Nat := 1
  is_active : Bool := true
  events : List DomainEvent := []
deriving DecidableEq, Repr

/-- `DomainEntity.__eq__` (base.py lines 89-100) on two `ItemExecution`
values: identity comparison by id only. -/
def ItemExecution.domain_eq (a b : ItemExecution) : Bool :=
  a.id == b.id

/-- `DomainEntity._bump_version` specialised to `ItemExecution`. -/
def ItemExecution.bump_version (ie : ItemExecution) (now : Nat) : ItemExecution :=
  { ie with version := ie.version + 1, updated_at := some now }

/-- `ItemExecution.start` (execution.py lines 242-260): reject when
max_attempts is reached, otherwise transition to PROCESSING and increment
attempt_count.  Returns the error raised, if any, with the entity state
after the call. -/
def ItemExecution.start (ie : ItemExecution) (now : Nat) :
    Option InvalidStateError × ItemExecution :=
  if (match ie.max_attempts with
      | some m => decide (m ≤ ie.attempt_count)
      | none => false) then
    (some ⟨"ItemExecution", ie.id, ie.status.value,
      "start (max attempts already reached)"⟩, ie)
  else if ie.status.can_transition_to .PROCESSING = false then
    (some ⟨"ItemExecution", ie.id, ie.status.value, "start"⟩, ie)
  else
    let ie1 := { ie with status := ExecutionStatus.PROCESSING,
                         started_at := some now,
                         attempt_count := ie.attempt_count + 1 }
    (none, ie1.bump_version now)

/-- The target status computed by `ItemExecution.fail` (execution.py lines
292-295): RETRYING when max_attempts is set and attempts remain, else
FAILED. -/
def ItemExecution.fail_target (ie : ItemExecution) : ExecutionStatus :=
  match ie.max_attempts with
  | some m => if ie.attempt_count < m then .RETRYING else .FAILED
  | none => .FAILED

/-- `ItemExecution.fail` (execution.py lines 278-316).  Mirrors the source
statement order: error_message is assigned before the transition-legality
check, so a rejected call still leaves it overwritten. -/
def ItemExecution.fail (ie : ItemExecution) (msg : String) (now : Nat) :
    Option InvalidStateError × ItemExecution :=
  let ie1 := { ie with error_message := some msg }
  let target := ie1.fail_target
  if ie1.status.can_transition_to target = false then
    (some ⟨"ItemExecution", ie1.id, ie1.status.value, "transition"⟩, ie1)
  else
    let ie2 := { ie1 with status := target }
    let ie3 := if target = ExecutionStatus.FAILED
               then { ie2 with finished_at := some now } else ie2
    let ie4 := ie3.bump_version now
    (none, { ie4 with events := ie4.events ++
      [.ItemExecutionFailed ie4.id ie4.run_id ie4.item_id msg ie4.attempt_count] })

/-- Claim C1: for every ordered pair of the seven ExecutionStatus values,
`can_transition_to` returns true exactly when the pair is in the section
4.1 transition table, and in particular returns false for every pair whose
source is COMPLETED, CANCELLED or SKIPPED. -/
theorem c1_can_transition_to_matches_table :
    ∀ s t : ExecutionStatus,
      (ExecutionStatus.can_transition_to s t = true ↔ (s, t) ∈ specLegalPairs) ∧
      (s = .COMPLETED ∨ s = .CANCELLED ∨ s = .SKIPPED →
        ExecutionStatus.can_transition_to s t = false) := by
  decide

/-- Witness for C1: a concrete terminal source has no outgoing transition. -/
theorem c1_can_transition_to_matches_table_witness :
    ExecutionStatus.can_transition_to .COMPLETED .PENDING = false :=
  (c1_can_transition_to_matches_table .COMPLETED .PENDING).2 (Or.inl rfl)

/-- Claim C9: equality of persisted domain entities is determined by the
identifier only — equal ids make entities equal whatever the other
attributes are, distinct ids make them unequal even when every other
attribute matches. -/
theorem c9_entity_equality_by_id :
    (∀ a b : Run, Run.domain_eq a b = true ↔ a.id = b.id) ∧
    (∀ a b : ItemExecution, ItemExecution.domain_eq a b = true ↔ a.id = b.id) := by
  constructor <;> intro a b <;>
    simp [Run.domain_eq, ItemExecution.domain_eq]

/-- Claim C7: `complete()` on a Run whose state forbids the transition to
COMPLETED (e.g. PENDING) raises InvalidStateError and leaves the Run
unchanged; on a PROCESSING Run it sets status COMPLETED, a non-null
finished_at, increments version by exactly 1 and registers exactly one
RunCompleted event carrying the Run's own run_id and automation_id. -/
theorem c7_run_complete (r : Run) (now : Nat) :
    (r.status.can_transition_to .COMPLETED = false →
      Run.complete r now = (some ⟨"Run", r.id, r.status.value, "complete"⟩, r)) ∧
    (r.status = .PROCESSING →
      ∃ e, Run.complete r now = (none, e) ∧
        e.status = .COMPLETED ∧ e.finished_at = some now ∧
        e.version = r.version + 1 ∧
        e.events = r.events ++ [DomainEvent.RunCompleted r.id r.automation_id now]) := by
  constructor
  · intro h
    simp [Run.complete, h]
  · intro h
    obtain ⟨i, a, c, cr, es, st, sa, fa, ca, ua, cb, ub, v, act, evs⟩ := r
    cases h
    exact ⟨_, rfl, rfl, rfl, rfl, rfl⟩

/-- `ItemExecution.can_retry` (execution.py lines 318-324). -/
def ItemExecution.can_retry (ie : ItemExecution) : Bool :=
  match ie.max_attempts with
  | some m => decide (ie.attempt_count < m)
  | none => false

/-- A concrete item execution used to witness C5: PROCESSING with
attempt_count 1 of max_attempts 3, the spec's own retry example. -/
def c5ie : ItemExecution :=
  { id := 1, run_id := 2, batch_execution_id := 3, item_id := 4,
    status := .PROCESSING, attempt_count := 1, max_attempts := some 3 }

/-- Claim C5: when failing is legal, `fail(message)` moves the item
execution to RETRYING exactly when max_attempts is set and attempt_count
is still below it, and to FAILED otherwise; finished_at is assigned only
when the resulting status is FAILED and is left untouched (so stays unset)
when the result is RETRYING. -/
theorem c5_item_fail_retry_policy (ie : ItemExecution) (msg : String) (now : Nat)
    (h : ie.status.can_transition_to ie.fail_target = true) :
    (ie.fail msg now).1 = none ∧
    ((ie.fail msg now).2.status = .RETRYING ↔ ie.can_retry = true) ∧
    ((ie.fail msg now).2.status = .RETRYING ∨ (ie.fail msg now).2.status = .FAILED) ∧
    ((ie.fail msg now).2.status = .FAILED → (ie.fail msg now).2.finished_at = some now) ∧
    ((ie.fail msg now).2.status = .RETRYING → (ie.fail msg now).2.finished_at = ie.finished_at) := by
  obtain ⟨i, rid, bid, iid, rp, em, st, sa, fa, ac, ma, ca, ua, cb, ub, v, act, evs⟩ := ie
  simp only [ItemExecution.fail_target] at h
  simp only [ItemExecution.fail, ItemExecution.fail_target, ItemExecution.can_retry,
    ItemExecution.bump_version, h, Bool.true_eq_false, if_false]
  rcases ma with _ | m
  · simp
  · by_cases hlt : ac < m
    · simp [hlt] at h ⊢
    · simp [hlt] at h ⊢

/-- Witness for C5 at the spec's retry example. -/
theorem c5_item_fail_retry_policy_witness :
    (c5ie.fail "boom" 9).1 = none ∧
    ((c5ie.fail "boom" 9).2.status = .RETRYING ↔ c5ie.can_retry = true) ∧
    ((c5ie.fail "boom" 9).2.status = .RETRYING ∨ (c5ie.fail "boom" 9).2.status = .FAILED) ∧
    ((c5ie.fail "boom" 9).2.status = .FAILED → (c5ie.fail "boom" 9).2.finished_at = some 9) ∧
    ((c5ie.fail "boom" 9).2.status = .RETRYING →
      (c5ie.fail "boom" 9).2.finished_at = c5ie.finished_at) :=
  c5_item_fail_retry_policy c5ie "boom" 9 (by decide)

/-- Concrete item executions used to witness C6: one fresh with attempts
remaining, one already at its max_attempts ceiling. -/
def c6ieFresh : ItemExecution :=
  { id := 1, run_id := 2, batch_execution_id := 3, item_id := 4,
    max_attempts := some 2 }

/-- The item execution at its attempt ceiling for the C6 witness. -/
def c6ieMaxed : ItemExecution :=
  { id := 1, run_id := 2, batch_execution_id := 3, item_id := 4,
    status := .RETRYING, attempt_count := 1, max_attempts := some 1 }

/-- Claim C6: each successful `start()` increments attempt_count by
exactly 1, and once attempt_count has reached a set max_attempts,
`start()` raises InvalidStateError and leaves the entity (status,
attempt_count) unchanged. -/
theorem c6_item_start_attempt_accounting (ie : ItemExecution) (now : Nat) :
    ((ie.start now).1 = none →
      (ie.start now).2.attempt_count = ie.attempt_count + 1) ∧
    (∀ m, ie.max_attempts = some m → m ≤ ie.attempt_count →
      ie.start now = (some ⟨"ItemExecution", ie.id, ie.status.value,
        "start (max attempts already reached)"⟩, ie)) := by
  constructor
  · intro h
    obtain ⟨i, rid, bid, iid, rp, em, st, sa, fa, ac, ma, ca, ua, cb, ub, v, act, evs⟩ := ie
    simp only [ItemExecution.start, ItemExecution.bump_version] at h ⊢
    rcases ma with _ | m
    · by_cases hc : ExecutionStatus.can_transition_to st .PROCESSING = false
      · simp [hc] at h
      · simp [hc] at h ⊢
    · by_cases hle : m ≤ ac
      · simp [hle] at h
      · by_cases hc : ExecutionStatus.can_transition_to st .PROCESSING = false
        · simp [hle, hc] at h
        · simp [hle, hc] at h ⊢
  · intro m hm hle
    obtain ⟨i, rid, bid, iid, rp, em, st, sa, fa, ac, ma, ca, ua, cb, ub, v, act, evs⟩ := ie
    simp only at hm
    subst hm
    simp [ItemExecution.start, hle]

/-- Witness for C6: the fresh execution starts and reaches attempt_count
1; the maxed-out one is rejected unchanged. -/
theorem c6_item_start_attempt_accounting_witness :
    ((c6ieFresh.start 7).2.attempt_count = c6ieFresh.attempt_count + 1) ∧
    (c6ieMaxed.start 7 = (some ⟨"ItemExecution", c6ieMaxed.id,
      c6ieMaxed.status.value, "start (max attempts already reached)"⟩, c6ieMaxed)) :=
  ⟨(c6_item_start_attempt_accounting c6ieFresh 7).1 (by decide),
   (c6_item_start_attempt_accounting c6ieMaxed 7).2 1 (by decide) (by decide)⟩

/-- A concrete PENDING item execution for the C10 witness: failing from
PENDING is illegal (target FAILED, and PENDING cannot move to FAILED). -/
def c10ie : ItemExecution :=
  { id := 1, run_id := 2, batch_execution_id := 3, item_id := 4 }

/-- Claim C10: when the computed fail target is not a legal transition,
`fail(message)` raises InvalidStateError and leaves status, attempt_count,
finished_at and version unchanged — but the in-memory entity's
error_message has already been overwritten with the supplied message,
because the assignment precedes the legality check. -/
theorem c10_item_fail_rejected_still_overwrites_message
    (ie : ItemExecution) (msg : String) (now : Nat)
    (h : ie.status.can_transition_to ie.fail_target = false) :
    ie.fail msg now =
      (some ⟨"ItemExecution", ie.id, ie.status.value, "transition"⟩,
        { ie with error_message := some msg }) ∧
    ({ ie with error_message := some msg } : ItemExecution).status = ie.status ∧
    ({ ie with error_message := some msg } : ItemExecution).attempt_count = ie.attempt_count ∧
    ({ ie with error_message := some msg } : ItemExecution).finished_at = ie.finished_at ∧
    ({ ie with error_message := some msg } : ItemExecution).version = ie.version ∧
    ({ ie with error_message := some msg } : ItemExecution).error_message = some msg := by
  obtain ⟨i, rid, bid, iid, rp, em, st, sa, fa, ac, ma, ca, ua, cb, ub, v, act, evs⟩ := ie
  simp only [ItemExecution.fail_target] at h
  refine ⟨?_, rfl, rfl, rfl, rfl, rfl⟩
  simp [ItemExecution.fail, ItemExecution.fail_target, h]

/-- Witness for C10: a PENDING item execution rejects `fail` yet keeps the
overwritten error_message. -/
theorem c10_item_fail_rejected_still_overwrites_message_witness :
    c10ie.fail "err" 6 =
      (some ⟨"ItemExecution", c10ie.id, c10ie.status.value, "transition"⟩,
        { c10ie with error_message := some "err" }) ∧
    ({ c10ie with error_message := some "err" } : ItemExecution).status = c10ie.status ∧
    ({ c10ie with error_message := some "err" } : ItemExecution).attempt_count = c10ie.attempt_count ∧
    ({ c10ie with error_message := some "err" } : ItemExecution).finished_at = c10ie.finished_at ∧
    ({ c10ie with error_message := some "err" } : ItemExecution).version = c10ie.version ∧
    ({ c10ie with error_message := some "err" } : ItemExecution).error_message = some "err" :=
  c10_item_fail_rejected_still_overwrites_message c10ie "err" 6 (by decide)

/-- Concrete Runs for the C7 witness: one never started, one PROCESSING. -/
def c7runPending : Run := { id := 1, automation_id := 2 }

/-- The started Run for the C7 witness. -/
def c7runProcessing : Run := { id := 1, automation_id := 2, status := .PROCESSING }

/-- Witness for C7: the PENDING Run rejects `complete` unchanged; the
PROCESSING Run completes with version 2 and one RunCompleted event. -/
theorem c7_run_complete_witness :
    Run.complete c7runPending 5 =
      (some ⟨"Run", c7runPending.id, c7runPending.status.value, "complete"⟩,
        c7runPending) ∧
    (∃ e, Run.complete c7runProcessing 5 = (none, e) ∧
      e.status = .COMPLETED ∧ e.finished_at = some 5 ∧
      e.version = c7runProcessing.version + 1 ∧
      e.events = c7runProcessing.events ++
        [DomainEvent.RunCompleted c7runProcessing.id c7runProcessing.automation_id 5]) :=
  ⟨(c7_run_complete c7runPending 5).1 (by decide),
   (c7_run_complete c7runProcessing 5).2 (by decide)⟩

/-! ## Repository layer (repositories/base.py)

The generic repository is embedded over a single entity shape: `payload`
stands for the entity-specific business columns, and the audit columns
that `update` diffs (`updated_at`, `updated_by`, `is_active`, `version`)
are carried explicitly.  `id`, `created_at` and `created_by` are excluded
from the diff by the source (with preserve_created=True), so the created
columns are omitted.  The relational store is an association list from id
to row, updated by a conditional version-guarded write.  Operations are
sequential: between the eager version check and the conditional write of
one call nothing can interleave, so the write's zero-rows-matched branch
of the source is unreachable here. -/

/-- A persisted row: the diffable columns of a model row. -/
structure RowData where
  payload : Nat
  updated_at : Option Nat
  updated_by : Option String
  is_active : Bool
  version : Nat
deriving DecidableEq, Repr

/-- The relational store: id-keyed rows (primary key, so keys are unique
in any reachable store). -/
abbrev Store := List (Nat × RowData)

/-- Read a row by primary key. -/
def storeGet (st : Store) (id : Nat) : Option RowData :=
  (st.find? (fun p => p.fst == id)).map Prod.snd

/-- Write a row by primary key (the SQL UPDATE ... WHERE id = id). -/
def storeSet (st : Store) (id : Nat) (r : RowData) : Store :=
  st.map (fun p => if p.fst == id then (id, r) else p)

/-- `BaseRepository.count` (base.py lines 515-531): rows passing the
soft-delete filter unless include_soft_deleted. -/
def storeCount (st : Store) (include_soft_deleted : Bool) : Nat :=
  (st.filter (fun p => include_soft_deleted || p.snd.is_active)).length

/-- An in-memory domain entity as the repository sees it. -/
structure RepoEntity where
  id : Nat
  payload : Nat
  updated_at : Option Nat
  updated_by : Option String
  is_active : Bool
  version : Nat
deriving DecidableEq, Repr

/-- `_to_entity`: convert a row to a domain entity. -/
def to_entity (id : Nat) (r : RowData) : RepoEntity :=
  ⟨id, r.payload, r.updated_at, r.updated_by, r.is_active, r.version⟩

/-- `DomainEntity.touch` (base.py lines 128-137): refresh updated_at and,
when a user is given, updated_by. -/
def RepoEntity.touch (e : RepoEntity) (user : Option String) (now : Nat) : RepoEntity :=
  { e with updated_at := some now,
           updated_by := match user with | some u => some u | none => e.updated_by }

/-- `_get_changed_data` emptiness (base.py lines 342-401): true when the
entity agrees with the stored row on every updatable column (payload,
updated_at, updated_by, is_active, version; id and the created columns are
excluded). -/
def no_changed_data (e : RepoEntity) (r : RowData) : Bool :=
  e.payload == r.payload && e.updated_at == r.updated_at &&
  e.updated_by == r.updated_by && e.is_active == r.is_active &&
  e.version == r.version

/-- One unit-of-work scope as a repository sees it: the shared identity
map and the repository's `_original_versions` baselines. -/
structure RepoScope where
  identity_map : Nat → Option RepoEntity
  original_versions : Nat → Option Nat

/-- A freshly opened scope: nothing tracked. -/
def emptyScope : RepoScope :=
  ⟨fun _ => none, fun _ => none⟩

/-- The repository errors the embedded operations can surface.
Versions in ConcurrencyError are Int because the source uses -1 as the
untracked sentinel. -/
inductive RepoError where
  | concurrency (expected : Int) (actual : Int)
  | notFound
deriving DecidableEq, Repr

/-- Result of a repository write: the outcome plus the store and scope
after the call. -/
structure RepoResult where
  result : Except RepoError RepoEntity
  store : Store
  scope : RepoScope

/-- The store-query path of `BaseRepository.get` (base.py lines 87-99):
read the row (honouring the active filter), convert, register in the
identity map and record the version baseline. -/
def repo_get_query (st : Store) (sc : RepoScope) (id : Nat)
    (include_soft_deleted : Bool) : Option RepoEntity × RepoScope :=
  match storeGet st id with
  | some r =>
    if include_soft_deleted || r.is_active then
      let e := to_entity id r
      (some e,
        ⟨fun j => if j = id then some e else sc.identity_map j,
         fun j => if j = id then some r.version else sc.original_versions j⟩)
    else (none, sc)
  | none => (none, sc)

/-- `BaseRepository.get` (base.py lines 67-103): identity map first; a
cached entity passing the active filter is returned with its baseline
refreshed, otherwise the store is queried. -/
def repo_get (st : Store) (sc : RepoScope) (id : Nat)
    (include_soft_deleted : Bool) : Option RepoEntity × RepoScope :=
  match sc.identity_map id with
  | some e =>
    if include_soft_deleted || e.is_active then
      (some e,
        { sc with original_versions :=
            fun j => if j = id then some e.version else sc.original_versions j })
    else repo_get_query st sc id include_soft_deleted
  | none => repo_get_query st sc id include_soft_deleted

/-- The scope obtained by a fresh unit of work that has loaded entity
`id` once via `get`. -/
def freshScope (st : Store) (id : Nat) : RepoScope :=
  (repo_get st emptyScope id false).snd

/-- `BaseRepository.update` (base.py lines 236-340) with use_versioning:
untracked baseline fails with expected -1; a stale baseline fails with
(expected, actual); an empty diff after `touch` with a matching entity
version is a no-op; otherwise the version-guarded conditional write bumps
the version to expected + 1 and merges the fresh row back into the
tracked entity and the baselines. -/
def repo_update (st : Store) (sc : RepoScope) (id : Nat) (e : RepoEntity)
    (user : Option String) (now : Nat) : RepoResult :=
  match sc.original_versions id with
  | none => ⟨.error (.concurrency (-1) (e.version : Int)), st, sc⟩
  | some expected =>
    match storeGet st id with
    | none => ⟨.error .notFound, st, sc⟩
    | some row =>
      if row.version = expected then
        let e1 := e.touch user now
        if no_changed_data e1 row && (e1.version == expected) then
          ⟨.ok e1, st, sc⟩
        else
          let newRow : RowData :=
            ⟨e1.payload, e1.updated_at, e1.updated_by, e1.is_active, expected + 1⟩
          let e2 := to_entity id newRow
          ⟨.ok e2, storeSet st id newRow,
            ⟨fun j => if j = id then some e2 else sc.identity_map j,
             fun j => if j = id then some newRow.version else sc.original_versions j⟩⟩
      else ⟨.error (.concurrency (expected : Int) (row.version : Int)), st, sc⟩

/-- Result of a repository delete. -/
structure DeleteResult where
  result : Except RepoError Bool
  store : Store
  scope : RepoScope

/-- The applying half of the soft-delete branch of `BaseRepository.delete`
(base.py lines 424-466): flip is_active, refresh audit columns, bump the
version, then merge into the tracked entity (refreshing its baseline) or
drop the baseline when untracked. -/
def apply_soft_delete (st : Store) (sc : RepoScope) (id : Nat) (row : RowData)
    (user : Option String) (now : Nat) : DeleteResult :=
  let newRow : RowData :=
    { row with is_active := false, updated_at := some now,
               updated_by := match user with | some u => some u | none => row.updated_by,
               version := row.version + 1 }
  let st1 := storeSet st id newRow
  match sc.identity_map id with
  | some _ =>
    let e1 := to_entity id newRow
    ⟨.ok true, st1,
      ⟨fun j => if j = id then some e1 else sc.identity_map j,
       fun j => if j = id then some newRow.version else sc.original_versions j⟩⟩
  | none =>
    ⟨.ok true, st1,
      ⟨sc.identity_map, fun j => if j = id then none else sc.original_versions j⟩⟩

/-- `BaseRepository.delete(id, soft=True)` (base.py lines 403-466): the
conditional update matches no row when the id is absent (returns False) or
when a tracked expected version mismatches (ConcurrencyError); otherwise
the soft delete is applied. -/
def repo_delete_soft (st : Store) (sc : RepoScope) (id : Nat)
    (user : Option String) (now : Nat) : DeleteResult :=
  match storeGet st id with
  | none => ⟨.ok false, st, sc⟩
  | some row =>
    match sc.original_versions id with
    | some v =>
      if row.version = v then apply_soft_delete st sc id row user now
      else ⟨.error (.concurrency (v : Int) (row.version : Int)), st, sc⟩
    | none => apply_soft_delete st sc id row user now

/-- Reading a cons cell: the head matches or the search continues. -/
theorem storeGet_cons (k : Nat) (v : RowData) (tl : Store) (id : Nat) :
    storeGet ((k, v) :: tl) id = if k = id then some v else storeGet tl id := by
  by_cases h : k = id <;> simp [storeGet, List.find?_cons, h]

/-- Writing a key that is nowhere in the store changes nothing. -/
theorem storeSet_of_not_mem (st : Store) (id : Nat) (r : RowData)
    (h : ∀ p ∈ st, p.fst ≠ id) : storeSet st id r = st := by
  induction st with
  | nil => rfl
  | cons hd tl ih =>
    have h1 : (hd.fst == id) = false := by
      simp [h hd (List.mem_cons_self hd tl)]
    simp only [storeSet, List.map_cons, h1, Bool.false_eq_true, if_false]
    have h2 : storeSet tl id r = tl := ih (fun p hp => h p (List.mem_cons_of_mem hd hp))
    simp only [storeSet] at h2
    rw [h2]

/-- After a keyed write, reading the same key sees the new row, provided
the key was present. -/
theorem storeGet_storeSet_self (st : Store) (id : Nat) (r0 r : RowData)
    (h : storeGet st id = some r0) : storeGet (storeSet st id r) id = some r := by
  induction st with
  | nil => simp [storeGet] at h
  | cons hd tl ih =>
    obtain ⟨k, v⟩ := hd
    by_cases hk : k = id
    · subst hk
      simp only [storeSet, List.map_cons, beq_self_eq_true, if_true]
      simp [storeGet_cons]
    · rw [storeGet_cons] at h
      simp only [hk, if_false] at h
      have h1 : (k == id) = false := by simp [hk]
      simp only [storeSet, List.map_cons, h1, Bool.false_eq_true, if_false]
      have h2 := ih h
      simp only [storeSet] at h2
      rw [storeGet_cons, if_neg hk]
      exact h2

/-- Counting a cons cell. -/
theorem storeCount_cons (p : Nat × RowData) (tl : Store) (b : Bool) :
    storeCount (p :: tl) b =
      storeCount tl b + (if (b || p.snd.is_active) = true then 1 else 0) := by
  simp only [storeCount, List.filter_cons]
  split <;> simp [*]

/-- The unfiltered count ignores row rewrites. -/
theorem storeCount_storeSet_true (st : Store) (id : Nat) (r : RowData) :
    storeCount (storeSet st id r) true = storeCount st true := by
  induction st with
  | nil => rfl
  | cons hd tl ih =>
    simp only [storeSet, List.map_cons] at ih ⊢
    by_cases hk : (hd.fst == id) = true
    · rw [if_pos hk, storeCount_cons, storeCount_cons, ih]
      simp
    · rw [if_neg hk, storeCount_cons, storeCount_cons, ih]

/-- Deactivating the unique active row for a present key drops the
filtered count by exactly one. -/
theorem storeCount_storeSet_deactivate (st : Store) (id : Nat) (row r : RowData)
    (hnd : (st.map Prod.fst).Nodup)
    (hrow : storeGet st id = some row)
    (hact : row.is_active = true) (hr : r.is_active = false) :
    storeCount (storeSet st id r) false + 1 = storeCount st false := by
  induction st with
  | nil => simp [storeGet] at hrow
  | cons hd tl ih =>
    obtain ⟨k, v⟩ := hd
    simp only [List.map_cons, List.nodup_cons] at hnd
    by_cases hk : k = id
    · subst hk
      rw [storeGet_cons] at hrow
      simp only [if_true] at hrow
      obtain rfl : v = row := by simpa using hrow
      have hset : storeSet tl k r = tl := by
        refine storeSet_of_not_mem tl k r (fun p hp hpk => hnd.1 ?_)
        exact hpk ▸ List.mem_map_of_mem Prod.fst hp
      simp only [storeSet, List.map_cons, beq_self_eq_true, if_true]
      simp only [storeSet] at hset
      rw [hset, storeCount_cons, storeCount_cons]
      simp [hr, hact]
    · have h1 : (k == id) = false := by simp [hk]
      rw [storeGet_cons] at hrow
      simp only [hk, if_false] at hrow
      simp only [storeSet, List.map_cons, h1, Bool.false_eq_true, if_false]
      have h2 := ih hnd.2 hrow
      simp only [storeSet] at h2
      rw [storeCount_cons, storeCount_cons]
      omega

/-- A fresh `get` of a present active row returns the converted entity and
records it in the identity map and the version baselines. -/
theorem repo_get_fresh (st : Store) (id : Nat) (row : RowData)
    (hrow : storeGet st id = some row) (hact : row.is_active = true) :
    repo_get st emptyScope id false =
      (some (to_entity id row),
        ⟨fun j => if j = id then some (to_entity id row) else none,
         fun j => if j = id then some row.version else none⟩) := by
  simp [repo_get, emptyScope, repo_get_query, hrow, hact]

/-- Scenario helper for C2: one scope loads entity `id` from `st` and then
updates it (the source's uow1 in test_repository_concurrency.py). -/
def c2_first_update (st : Store) (id : Nat) (e : RepoEntity)
    (user : Option String) (now : Nat) : RepoResult :=
  repo_update st (freshScope st id) id e user now

/-- Scenario helper for C2: a second independent scope that loaded `id`
from the original store updates it only after the first scope's update
has been applied (the source's uow2). -/
def c2_second_update (st : Store) (id : Nat) (e1 e2 : RepoEntity)
    (userA userB : Option String) (nowA nowB : Nat) : RepoResult :=
  repo_update (c2_first_update st id e1 userA nowA).store
    (freshScope st id) id e2 userB nowB

/-- Claim C2: for an entity stored at version 1 and loaded by two
independent scopes, the first scope's update succeeds and raises the
stored version to 2; the second scope's update with its stale baseline 1
raises ConcurrencyError with expected_version 1 and actual_version 2 and
leaves the stored row untouched. -/
theorem c2_stale_scope_update_raises_concurrency
    (st : Store) (id pl : Nat) (ua : Option Nat) (ub : Option String)
    (userA userB : Option String) (nowA nowB : Nat)
    (hrow : storeGet st id = some ⟨pl, ua, ub, true, 1⟩)
    (hstale : ua ≠ some nowA) :
    (c2_first_update st id (to_entity id ⟨pl, ua, ub, true, 1⟩) userA nowA).result.isOk
      = true ∧
    (storeGet (c2_first_update st id (to_entity id ⟨pl, ua, ub, true, 1⟩)
      userA nowA).store id).map RowData.version = some 2 ∧
    (c2_second_update st id (to_entity id ⟨pl, ua, ub, true, 1⟩)
      (to_entity id ⟨pl, ua, ub, true, 1⟩) userA userB nowA nowB).result =
      .error (.concurrency 1 2) ∧
    (c2_second_update st id (to_entity id ⟨pl, ua, ub, true, 1⟩)
      (to_entity id ⟨pl, ua, ub, true, 1⟩) userA userB nowA nowB).store =
      (c2_first_update st id (to_entity id ⟨pl, ua, ub, true, 1⟩) userA nowA).store := by
  have hfresh := repo_get_fresh st id ⟨pl, ua, ub, true, 1⟩ hrow rfl
  have hbeq : (some nowA == ua) = false := by
    rw [beq_eq_false_iff_ne]
    exact fun h => hstale h.symm
  rcases userA with _ | u
  · have hAres : (c2_first_update st id (to_entity id ⟨pl, ua, ub, true, 1⟩)
        none nowA).result = .ok ⟨id, pl, some nowA, ub, true, 2⟩ := by
      simp [c2_first_update, freshScope, hfresh, repo_update, RepoEntity.touch,
        to_entity, no_changed_data, hrow, hbeq]
    have hAstore : (c2_first_update st id (to_entity id ⟨pl, ua, ub, true, 1⟩)
        none nowA).store = storeSet st id ⟨pl, some nowA, ub, true, 2⟩ := by
      simp [c2_first_update, freshScope, hfresh, repo_update, RepoEntity.touch,
        to_entity, no_changed_data, hrow, hbeq]
    have hset2 := storeGet_storeSet_self st id ⟨pl, ua, ub, true, 1⟩
      ⟨pl, some nowA, ub, true, 2⟩ hrow
    refine ⟨?_, ?_, ?_, ?_⟩
    · rw [hAres]
      rfl
    · rw [hAstore, hset2]
      rfl
    · simp only [c2_second_update]
      rw [hAstore]
      simp [freshScope, hfresh, repo_update, hset2]
    · simp only [c2_second_update]
      rw [hAstore]
      simp [freshScope, hfresh, repo_update, hset2]
  · have hAres : (c2_first_update st id (to_entity id ⟨pl, ua, ub, true, 1⟩)
        (some u) nowA).result = .ok ⟨id, pl, some nowA, some u, true, 2⟩ := by
      simp [c2_first_update, freshScope, hfresh, repo_update, RepoEntity.touch,
        to_entity, no_changed_data, hrow, hbeq]
    have hAstore : (c2_first_update st id (to_entity id ⟨pl, ua, ub, true, 1⟩)
        (some u) nowA).store = storeSet st id ⟨pl, some nowA, some u, true, 2⟩ := by
      simp [c2_first_update, freshScope, hfresh, repo_update, RepoEntity.touch,
        to_entity, no_changed_data, hrow, hbeq]
    have hset2 := storeGet_storeSet_self st id ⟨pl, ua, ub, true, 1⟩
      ⟨pl, some nowA, some u, true, 2⟩ hrow
    refine ⟨?_, ?_, ?_, ?_⟩
    · rw [hAres]
      rfl
    · rw [hAstore, hset2]
      rfl
    · simp only [c2_second_update]
      rw [hAstore]
      simp [freshScope, hfresh, repo_update, hset2]
    · simp only [c2_second_update]
      rw [hAstore]
      simp [freshScope, hfresh, repo_update, hset2]

/-- The concrete one-row store for the C2 witness. -/
def c2store : Store := [(5, ⟨7, some 0, none, true, 1⟩)]

/-- Witness for C2 on the concrete one-row store at version 1. -/
theorem c2_stale_scope_update_raises_concurrency_witness :
    (c2_first_update c2store 5 (to_entity 5 ⟨7, some 0, none, true, 1⟩)
      none 3).result.isOk = true ∧
    (storeGet (c2_first_update c2store 5 (to_entity 5 ⟨7, some 0, none, true, 1⟩)
      none 3).store 5).map RowData.version = some 2 ∧
    (c2_second_update c2store 5 (to_entity 5 ⟨7, some 0, none, true, 1⟩)
      (to_entity 5 ⟨7, some 0, none, true, 1⟩) none none 3 4).result =
      .error (.concurrency 1 2) ∧
    (c2_second_update c2store 5 (to_entity 5 ⟨7, some 0, none, true, 1⟩)
      (to_entity 5 ⟨7, some 0, none, true, 1⟩) none none 3 4).store =
      (c2_first_update c2store 5 (to_entity 5 ⟨7, some 0, none, true, 1⟩)
        none 3).store :=
  c2_stale_scope_update_raises_concurrency c2store 5 7 (some 0) none none none 3 4
    rfl (by decide)

/-- The stored row for the C4 counterexample: version 1, last updated at
tick 10, business payload 7. -/
def c4row : RowData := ⟨7, some 10, none, true, 1⟩

/-- The one-row store for the C4 counterexample. -/
def c4store : Store := [(1, c4row)]

/-- Counterexample to C4 as stated: the tracked entity `to_entity 1 c4row`
agrees with the stored row on every field, yet `update` at tick 11 is not
a no-op — `touch` refreshes updated_at before the diff, the diff is
non-empty, and both the returned entity and the stored row get version 2. -/
theorem c4_update_unchanged_not_noop_counterexample :
    (repo_update c4store (freshScope c4store 1) 1 (to_entity 1 c4row)
      none 11).result = .ok ⟨1, 7, some 11, none, true, 2⟩ ∧
    (⟨1, 7, some 11, none, true, 2⟩ : RepoEntity) ≠ to_entity 1 c4row ∧
    (storeGet (repo_update c4store (freshScope c4store 1) 1 (to_entity 1 c4row)
      none 11).store 1).map RowData.version = some 2 ∧
    c4row.version = 1 := by
  refine ⟨rfl, by decide, rfl, rfl⟩

/-- Claim C4 as amended: `update` on a tracked entity is a no-op (entity
returned as touched, no version bump on either side, store and scope
untouched) exactly when the diff computed after the audit-timestamp
refresh is empty — that is, the entity agrees with the stored row on every
updatable column including the refreshed updated_at/updated_by — and the
entity's version still equals the tracked baseline. -/
theorem c4_noop_update_amended (st : Store) (sc : RepoScope) (id : Nat)
    (row : RowData) (e : RepoEntity) (user : Option String) (now : Nat)
    (hb : sc.original_versions id = some row.version)
    (hrow : storeGet st id = some row)
    (hdiff : no_changed_data (e.touch user now) row = true)
    (hver : e.version = row.version) :
    repo_update st sc id e user now = ⟨.ok (e.touch user now), st, sc⟩ ∧
    (e.touch user now).version = e.version := by
  have hv2 : (e.touch user now).version = e.version := by
    simp [RepoEntity.touch]
  have hcond : (no_changed_data (e.touch user now) row &&
      ((e.touch user now).version == row.version)) = true := by
    simp [hdiff, hv2, hver]
  constructor
  · simp [repo_update, hb, hrow, hcond]
  · exact hv2

/-- The stored row for the C4 amended-claim witness: the touch timestamp
coincides with the stored updated_at, so the diff is empty. -/
def c4rowNoop : RowData := ⟨7, some 10, some "u", true, 3⟩

/-- The one-row store for the C4 amended-claim witness. -/
def c4storeNoop : Store := [(1, c4rowNoop)]

/-- Witness for the amended C4: with now equal to the stored updated_at
tick and no user, the update is a no-op at version 3. -/
theorem c4_noop_update_amended_witness :
    repo_update c4storeNoop (freshScope c4storeNoop 1) 1 (to_entity 1 c4rowNoop)
      none 10 =
      ⟨.ok ((to_entity 1 c4rowNoop).touch none 10), c4storeNoop,
        freshScope c4storeNoop 1⟩ ∧
    ((to_entity 1 c4rowNoop).touch none 10).version =
      (to_entity 1 c4rowNoop).version :=
  c4_noop_update_amended c4storeNoop (freshScope c4storeNoop 1) 1 c4rowNoop
    (to_entity 1 c4rowNoop) none 10 (by decide) (by decide) (by decide) rfl

/-- Scenario helper for C8: a scope loads entity `id` via `get` and then
soft-deletes it. -/
def c8_delete_after_get (st : Store) (id : Nat) (user : Option String)
    (now : Nat) : DeleteResult :=
  repo_delete_soft st (freshScope st id) id user now

/-- Claim C8: after a successful soft delete of a stored active entity,
`get(id)` is a miss, `get(id, includeSoftDeleted)` returns the entity with
is_active false and version bumped by one, the default `count` no longer
counts the entity, and `count(includeSoftDeleted)` still does. -/
theorem c8_soft_delete_semantics (st : Store) (id pl v : Nat) (ua : Option Nat)
    (ub : Option String) (user : Option String) (now : Nat)
    (hnd : (st.map Prod.fst).Nodup)
    (hrow : storeGet st id = some ⟨pl, ua, ub, true, v⟩) :
    (c8_delete_after_get st id user now).result = .ok true ∧
    (repo_get (c8_delete_after_get st id user now).store
      (c8_delete_after_get st id user now).scope id false).fst = none ∧
    ((repo_get (c8_delete_after_get st id user now).store
      (c8_delete_after_get st id user now).scope id true).fst).map
      RepoEntity.is_active = some false ∧
    ((repo_get (c8_delete_after_get st id user now).store
      (c8_delete_after_get st id user now).scope id true).fst).map
      RepoEntity.version = some (v + 1) ∧
    storeCount (c8_delete_after_get st id user now).store false + 1 =
      storeCount st false ∧
    storeCount (c8_delete_after_get st id user now).store true =
      storeCount st true := by
  have hfresh := repo_get_fresh st id ⟨pl, ua, ub, true, v⟩ hrow rfl
  rcases user with _ | u
  · have hdres : (c8_delete_after_get st id none now).result = .ok true := by
      simp [c8_delete_after_get, freshScope, hfresh, repo_delete_soft,
        apply_soft_delete, hrow]
    have hdstore : (c8_delete_after_get st id none now).store =
        storeSet st id ⟨pl, some now, ub, false, v + 1⟩ := by
      simp [c8_delete_after_get, freshScope, hfresh, repo_delete_soft,
        apply_soft_delete, hrow]
    have hdmap : (c8_delete_after_get st id none now).scope.identity_map id =
        some (to_entity id ⟨pl, some now, ub, false, v + 1⟩) := by
      simp [c8_delete_after_get, freshScope, hfresh, repo_delete_soft,
        apply_soft_delete, hrow]
    have hset := storeGet_storeSet_self st id ⟨pl, ua, ub, true, v⟩
      ⟨pl, some now, ub, false, v + 1⟩ hrow
    refine ⟨hdres, ?_, ?_, ?_, ?_, ?_⟩
    · simp [repo_get, hdmap, to_entity, repo_get_query, hdstore, hset]
    · simp [repo_get, hdmap, to_entity]
    · simp [repo_get, hdmap, to_entity]
    · rw [hdstore]
      exact storeCount_storeSet_deactivate st id ⟨pl, ua, ub, true, v⟩
        ⟨pl, some now, ub, false, v + 1⟩ hnd hrow rfl rfl
    · rw [hdstore]
      exact storeCount_storeSet_true st id ⟨pl, some now, ub, false, v + 1⟩
  · have hdres : (c8_delete_after_get st id (some u) now).result = .ok true := by
      simp [c8_delete_after_get, freshScope, hfresh, repo_delete_soft,
        apply_soft_delete, hrow]
    have hdstore : (c8_delete_after_get st id (some u) now).store =
        storeSet st id ⟨pl, some now, some u, false, v + 1⟩ := by
      simp [c8_delete_after_get, freshScope, hfresh, repo_delete_soft,
        apply_soft_delete, hrow]
    have hdmap : (c8_delete_after_get st id (some u) now).scope.identity_map id =
        some (to_entity id ⟨pl, some now, some u, false, v + 1⟩) := by
      simp [c8_delete_after_get, freshScope, hfresh, repo_delete_soft,
        apply_soft_delete, hrow]
    have hset := storeGet_storeSet_self st id ⟨pl, ua, ub, true, v⟩
      ⟨pl, some now, some u, false, v + 1⟩ hrow
    refine ⟨hdres, ?_, ?_, ?_, ?_, ?_⟩
    · simp [repo_get, hdmap, to_entity, repo_get_query, hdstore, hset]
    · simp [repo_get, hdmap, to_entity]
    · simp [repo_get, hdmap, to_entity]
    · rw [hdstore]
      exact storeCount_storeSet_deactivate st id ⟨pl, ua, ub, true, v⟩
        ⟨pl, some now, some u, false, v + 1⟩ hnd hrow rfl rfl
    · rw [hdstore]
      exact storeCount_storeSet_true st id ⟨pl, some now, some u, false, v + 1⟩

/-- The concrete two-row store for the C8 witness. -/
def c8store : Store := [(1, ⟨7, some 0, none, true, 4⟩), (2, ⟨8, some 0, none, true, 1⟩)]

/-- Witness for C8 on the concrete two-row store. -/
theorem c8_soft_delete_semantics_witness :
    (c8_delete_after_get c8store 1 (some "u") 9).result = .ok true ∧
    (repo_get (c8_delete_after_get c8store 1 (some "u") 9).store
      (c8_delete_after_get c8store 1 (some "u") 9).scope 1 false).fst = none ∧
    ((repo_get (c8_delete_after_get c8store 1 (some "u") 9).store
      (c8_delete_after_get c8store 1 (some "u") 9).scope 1 true).fst).map
      RepoEntity.is_active = some false ∧
    ((repo_get (c8_delete_after_get c8store 1 (some "u") 9).store
      (c8_delete_after_get c8store 1 (some "u") 9).scope 1 true).fst).map
      RepoEntity.version = some (4 + 1) ∧
    storeCount (c8_delete_after_get c8store 1 (some "u") 9).store false + 1 =
      storeCount c8store false ∧
    storeCount (c8_delete_after_get c8store 1 (some "u") 9).store true =
      storeCount c8store true :=
  c8_soft_delete_semantics c8store 1 7 4 (some 0) none (some "u") 9
    (by decide) rfl

/-! ## Unit of Work event dispatch (uow/unit_of_work.py)

A tracked entity is reduced to its composite key and its pending event
buffer (what `pop_events` drains).  `_tracked_entities` is an
insertion-ordered map, embedded as a list rekeyed in place on
re-registration and appended to on first registration. -/

/-- One entry of `_tracked_entities`: the (entity class, id) composite key
and the entity's pending `_events` buffer. -/
structure TrackedEntity where
  key : Nat
  events : List DomainEvent
deriving DecidableEq, Repr

/-- The unit-of-work tracking state relevant to event dispatch. -/
structure UnitOfWorkState where
  tracked_entities : List TrackedEntity
deriving DecidableEq, Repr

/-- `UnitOfWork.register_entity` (unit_of_work.py lines 154-170): a known
key is overwritten in place, a fresh key is appended, preserving
insertion order. -/
def UnitOfWorkState.register_entity (u : UnitOfWorkState) (t : TrackedEntity) :
    UnitOfWorkState :=
  if u.tracked_entities.any (fun x => x.key == t.key) then
    ⟨u.tracked_entities.map (fun x => if x.key == t.key then t else x)⟩
  else ⟨u.tracked_entities ++ [t]⟩

/-- `UnitOfWork.rollback` (unit_of_work.py lines 237-252): every pending
event and tracked entity is discarded without dispatch. -/
def UnitOfWorkState.rollback (_ : UnitOfWorkState) : UnitOfWorkState :=
  ⟨[]⟩

/-- `UnitOfWork._collect_events` (unit_of_work.py lines 185-196): drain
every tracked entity's buffer in registration order and clear the
tracking map. -/
def UnitOfWorkState.collect_events (u : UnitOfWorkState) :
    List DomainEvent × UnitOfWorkState :=
  ((u.tracked_entities.map TrackedEntity.events).flatten, ⟨[]⟩)

/-- Outcome of `UnitOfWork.commit`: the events handed to the event bus,
the tracking state afterwards, and whether the underlying transaction
commit succeeded. -/
structure CommitOutcome where
  dispatched : List DomainEvent
  state : UnitOfWorkState
  ok : Bool
deriving DecidableEq, Repr

/-- `UnitOfWork.commit` (unit_of_work.py lines 216-235): when the session
commit succeeds, collect and dispatch the events and clear the identity
map; when it fails, roll back (discarding everything) and re-raise, so
nothing is ever dispatched. -/
def UnitOfWorkState.commit (u : UnitOfWorkState) (session_commit_ok : Bool) :
    CommitOutcome :=
  if session_commit_ok then
    ⟨(u.collect_events).fst, ⟨[]⟩, true⟩
  else
    ⟨[], u.rollback, false⟩

/-- Claim C3: events registered during a scope are dispatched exactly once,
only after the underlying commit succeeds, as one list in registration
order (a freshly registered entity's events go to the end); on a failed
commit or a rollback nothing is ever dispatched and the pending events are
discarded, and a repeated commit re-dispatches nothing. -/
theorem c3_uow_commit_event_dispatch (u : UnitOfWorkState) (b : Bool) :
    ((u.commit true).dispatched =
      (u.tracked_entities.map TrackedEntity.events).flatten) ∧
    ((u.commit true).ok = true) ∧
    ((u.commit true).state.tracked_entities = []) ∧
    (((u.commit true).state.commit b).dispatched = []) ∧
    ((u.commit false).dispatched = [] ∧ (u.commit false).ok = false ∧
      (u.commit false).state.tracked_entities = []) ∧
    ((u.rollback).tracked_entities = [] ∧
      ((u.rollback).commit b).dispatched = []) ∧
    (∀ t : TrackedEntity, (∀ x ∈ u.tracked_entities, x.key ≠ t.key) →
      ((u.register_entity t).commit true).dispatched =
        (u.commit true).dispatched ++ t.events) := by
  refine ⟨rfl, rfl, rfl, ?_, ⟨rfl, rfl, rfl⟩, ⟨rfl, ?_⟩, ?_⟩
  · cases b <;> rfl
  · cases b <;> rfl
  · intro t ht
    have hany : (u.tracked_entities.any (fun x => x.key == t.key)) = false := by
      simp only [List.any_eq_false, beq_iff_eq]
      exact ht
    simp [UnitOfWorkState.register_entity, hany, UnitOfWorkState.commit,
      UnitOfWorkState.collect_events]

/-- Witness for C3: a two-entity scope with a freshly registered third
entity dispatches all buffers in registration order. -/
theorem c3_uow_commit_event_dispatch_witness :
    ((UnitOfWorkState.commit ⟨[⟨1, [.RunCompleted 1 2 3]⟩,
        ⟨2, [.RunFailed 4 5 "e" 6, .BatchExecutionFailed 7 8 9 10]⟩]⟩
      true).dispatched =
      ((([⟨1, [.RunCompleted 1 2 3]⟩,
        ⟨2, [.RunFailed 4 5 "e" 6, .BatchExecutionFailed 7 8 9 10]⟩] :
        List TrackedEntity)).map TrackedEntity.events).flatten) ∧
    ((UnitOfWorkState.register_entity ⟨[⟨1, [.RunCompleted 1 2 3]⟩,
        ⟨2, [.RunFailed 4 5 "e" 6, .BatchExecutionFailed 7 8 9 10]⟩]⟩
        ⟨3, [.RunCancelled 11 12 "r" 13]⟩).commit true).dispatched =
      ((UnitOfWorkState.commit ⟨[⟨1, [.RunCompleted 1 2 3]⟩,
        ⟨2, [.RunFailed 4 5 "e" 6, .BatchExecutionFailed 7 8 9 10]⟩]⟩
        true).dispatched ++ [.RunCancelled 11 12 "r" 13]) :=
  ⟨(c3_uow_commit_event_dispatch ⟨[⟨1, [.RunCompleted 1 2 3]⟩,
      ⟨2, [.RunFailed 4 5 "e" 6, .BatchExecutionFailed 7 8 9 10]⟩]⟩ true).1,
   (c3_uow_commit_event_dispatch ⟨[⟨1, [.RunCompleted 1 2 3]⟩,
      ⟨2, [.RunFailed 4 5 "e" 6, .BatchExecutionFailed 7 8 9 10]⟩]⟩ true).2.2.2.2.2.2
      ⟨3, [.RunCancelled 11 12 "r" 13]⟩ (by decide)⟩
